import Mathlib

/-!
Verification of the etop-am-system scoring engine, vendor adapters and
narrative citation gate.

JavaScript numbers are modelled as rationals (`ℚ`); `Math.round x` is
`⌊x + 1/2⌋` (JS rounds halves toward positive infinity), `Math.min` /
`Math.max` are `min` / `max`.  Database tables are modelled as lists of
row records per client, and the model-layer count/find helpers
(`deviceModel.countByClientId`, `controlModel.countByStatus`, …) become
list filters, mirroring the SQL `WHERE` clauses.  Fallible code returns
`Except`.  Evidence records are modelled by their score (and, for risk
components, the risk level and description strings the claims inspect);
the purely informational count fields are omitted.
-/

namespace EtopAM

/-- JavaScript `Math.round`: round half toward positive infinity. -/
def jround (q : ℚ) : ℤ := ⌊q + 1/2⌋

/-- Device health status, as written by the adapters
(`healthy | warning | critical | unknown`). -/
inductive HealthStatus
  | healthy
  | warning
  | critical
  | unknown
deriving DecidableEq, Repr

/-- Control status (`pass | fail | unknown`). -/
inductive ControlStatus
  | pass
  | fail
  | unknown
deriving DecidableEq, Repr

/-- A row of the `devices` table (fields the scoring engine reads). -/
structure DeviceRow where
  managed : Bool
  health_status : HealthStatus
deriving DecidableEq, Repr

/-- A row of the `users` table (fields the scoring engine reads).
`risk_level` is the vendor string `none | low | medium | high`. -/
structure UserRow where
  mfa_enabled : Bool
  risk_level : String
deriving DecidableEq, Repr

/-- A row of the `controls` table (fields the scoring engine reads). -/
structure ControlRow where
  control_type : String
  status : ControlStatus
deriving DecidableEq, Repr

/-- A row of the `tickets` table (fields the experience score reads).
`created_hour` / `created_day` are JS `Date#getHours` / `Date#getDay` of
`created_date`; `has_created_date` is false when `created_date` is null. -/
structure TicketRow where
  category : Option String
  sla_met : Bool
  reopen_count : Nat
  has_created_date : Bool
  created_hour : Nat
  created_day : Nat
deriving DecidableEq, Repr

/-- A row of the `risks` table (fields the risk score reads). -/
structure RiskRow where
  risk_type : String
  status : String
deriving DecidableEq, Repr

/-- The normalized rows owned by one client.  `currentTickets` and
`previousTickets` are the results of `ticketModel.findByDateRange` for
the current and previous quarter windows. -/
structure ClientDB where
  devices : List DeviceRow
  users : List UserRow
  controls : List ControlRow
  currentTickets : List TicketRow
  previousTickets : List TicketRow
  risks : List RiskRow
deriving DecidableEq, Repr

/-! ### Model-layer query helpers (src/models) -/

/-- `deviceModel.countByClientId`. -/
def countDevices (db : ClientDB) : ℕ := db.devices.length

/-- `deviceModel.countManagedByClientId`. -/
def countManagedDevices (db : ClientDB) : ℕ :=
  (db.devices.filter (fun d => d.managed)).length

/-- `deviceModel.findByHealthStatus(clientId, h).length`. -/
def countDevicesByHealth (db : ClientDB) (h : HealthStatus) : ℕ :=
  (db.devices.filter (fun d => d.health_status == h)).length

/-- `controlModel.countByStatus`. -/
def countControlsByStatus (db : ClientDB) (s : ControlStatus) : ℕ :=
  (db.controls.filter (fun c => c.status == s)).length

/-- `controlModel.getPassRate(clientId, controlType)`: percentage of
controls of the given type with status `pass`; 0 when there are none. -/
def getPassRate (db : ClientDB) (controlType : String) : ℚ :=
  if (db.controls.filter (fun c => c.control_type == controlType)).length = 0 then 0
  else (((db.controls.filter (fun c => c.control_type == controlType)).filter
      (fun c => c.status == ControlStatus.pass)).length : ℚ) /
    (db.controls.filter (fun c => c.control_type == controlType)).length * 100

/-- `userModel.countByClientId` (user model queries mirror the device
model ones; the spec data model gives `User` its fields). -/
def countUsers (db : ClientDB) : ℕ := db.users.length

/-- `userModel.countMFAEnabled`. -/
def countMFAEnabled (db : ClientDB) : ℕ :=
  (db.users.filter (fun u => u.mfa_enabled)).length

/-- `userModel.countByRiskLevel`. -/
def countUsersByRiskLevel (db : ClientDB) (lvl : String) : ℕ :=
  (db.users.filter (fun u => u.risk_level == lvl)).length

/-- `ticketModel.countSLAMet` restricted to an already-fetched window. -/
def countSLAMet (tickets : List TicketRow) : ℕ :=
  (tickets.filter (fun t => t.sla_met)).length

/-- `ticketModel.countReopened` (rows with `reopen_count > 0`). -/
def countReopened (tickets : List TicketRow) : ℕ :=
  (tickets.filter (fun t => decide (0 < t.reopen_count))).length

/-- `riskModel.findByType`. -/
def risksByType (db : ClientDB) (t : String) : List RiskRow :=
  db.risks.filter (fun r => r.risk_type == t)

/-! ### Standards score (src/engine/standards-score.js) -/

/-- A score component (its evidence counts are derived from the same
inputs and omitted here). -/
structure Component where
  score : ℚ
deriving DecidableEq, Repr

/-- The five-component breakdown of the Standards score. -/
structure StandardsBreakdown where
  device_coverage : Component
  immy_compliance : Component
  patch_compliance : Component
  edr_health : Component
  m365_secure_score : Component
deriving DecidableEq, Repr

/-- Result of `calculateStandardsScore`: `score: null` with an `error`
string and empty breakdown when there are no devices, otherwise a
rounded total plus the breakdown. -/
structure StandardsScoreResult where
  score : Option ℤ
  error : Option String
  breakdown : Option StandardsBreakdown
deriving DecidableEq, Repr

/-- `calculateDeviceCoverage`: percentage of devices under management,
capped at 100 (0 when there are no devices). -/
def calculateDeviceCoverage (totalDevices managedDevices : ℕ) : Component :=
  { score := min (if 0 < totalDevices then (managedDevices : ℚ) / totalDevices * 100 else 0) 100 }

/-- The Immy denominator: controls counted over the three statuses. -/
def totalControlsCount (db : ClientDB) : ℕ :=
  countControlsByStatus db ControlStatus.pass +
    countControlsByStatus db ControlStatus.fail +
    countControlsByStatus db ControlStatus.unknown

/-- `calculateImmyCompliance`: percentage of controls passing, rounded;
0 when there are no controls at all. -/
def calculateImmyCompliance (db : ClientDB) : Component :=
  if totalControlsCount db = 0 then { score := 0 }
  else { score := (jround ((countControlsByStatus db ControlStatus.pass : ℚ) / totalControlsCount db * 100) : ℚ) }

/-- `calculatePatchCompliance`: percentage of devices with healthy
status (proxy for patched), rounded; 0 with no devices. -/
def calculatePatchCompliance (db : ClientDB) : Component :=
  if countDevices db = 0 then { score := 0 }
  else { score := (jround ((countDevicesByHealth db HealthStatus.healthy : ℚ) / countDevices db * 100) : ℚ) }

/-- `calculateEDRHealth`: percentage of managed devices (proxy for EDR
coverage), rounded; 0 with no devices. -/
def calculateEDRHealth (db : ClientDB) : Component :=
  if countDevices db = 0 then { score := 0 }
  else { score := (jround ((countManagedDevices db : ℚ) / countDevices db * 100) : ℚ) }

/-- `calculateM365SecureScore`: the m365 secure-score pass rate,
rounded; 0 when the pass rate is 0. -/
def calculateM365SecureScore (db : ClientDB) : Component :=
  if getPassRate db "m365_secure_score" = 0 then { score := 0 }
  else { score := (jround (getPassRate db "m365_secure_score") : ℚ) }

/-- The Standards component weights, in breakdown order. -/
def standardsWeights : List ℚ := [0.20, 0.30, 0.20, 0.15, 0.15]

/-- The weighted total reduced over the Standards components. -/
def weightedTotal (scores weights : List ℚ) : ℚ :=
  ((scores.zip weights).map (fun p => p.1 * p.2)).sum

/-- The Standards breakdown computed for a client with devices. -/
def standardsBreakdown (db : ClientDB) : StandardsBreakdown :=
  { device_coverage := calculateDeviceCoverage (countDevices db) (countManagedDevices db)
    immy_compliance := calculateImmyCompliance db
    patch_compliance := calculatePatchCompliance db
    edr_health := calculateEDRHealth db
    m365_secure_score := calculateM365SecureScore db }

/-- `calculateStandardsScore`. -/
def calculateStandardsScore (db : ClientDB) : StandardsScoreResult :=
  if countDevices db = 0 then
    { score := none
      error := some "Insufficient data: no devices found"
      breakdown := none }
  else
    { score := some (jround (weightedTotal
        [(standardsBreakdown db).device_coverage.score,
          (standardsBreakdown db).immy_compliance.score,
          (standardsBreakdown db).patch_compliance.score,
          (standardsBreakdown db).edr_health.score,
          (standardsBreakdown db).m365_secure_score.score] standardsWeights))
      error := none
      breakdown := some (standardsBreakdown db) }

/-! ### Experience score (src/engine/experience-score.js) -/

/-- Quarter-over-quarter percent change in tickets per user
(`trendPercentage` local of `calculateTicketsPerUserTrend`); 0 when the
previous quarter had no tickets per user.  Only used with at least one
user, so the divisions are guarded at the call site. -/
def trendPercentage (db : ClientDB) : ℚ :=
  if 0 < (db.previousTickets.length : ℚ) / countUsers db then
    ((db.currentTickets.length : ℚ) / countUsers db -
        (db.previousTickets.length : ℚ) / countUsers db) /
      ((db.previousTickets.length : ℚ) / countUsers db) * 100
  else 0

/-- The step function applied to the trend percentage (the `if`/`else
if` chain of `calculateTicketsPerUserTrend`; all comparisons strict). -/
def trendStepScore (t : ℚ) : ℚ :=
  if t < -20 then 90
  else if t < -10 then 75
  else if t < 0 then 60
  else if t = 0 then 50
  else if t < 10 then 40
  else if t < 20 then 30
  else 20

/-- `calculateTicketsPerUserTrend`: neutral 50 with no users, otherwise
the step score of the quarter-over-quarter trend. -/
def calculateTicketsPerUserTrend (db : ClientDB) : Component :=
  if countUsers db = 0 then { score := 50 }
  else { score := trendStepScore (trendPercentage db) }

/-- The ticket category key used for grouping (`ticket.category ||
'Unknown'`; an empty string is falsy in JS). -/
def categoryKey (t : TicketRow) : String :=
  match t.category with
  | none => "Unknown"
  | some c => if c = "" then "Unknown" else c

/-- Distinct category keys of a ticket list (`Object.keys` of the
per-category counter built by `calculateRepeatIssueRate`). -/
def ticketCategories (tickets : List TicketRow) : List String :=
  (tickets.map categoryKey).dedup

/-- Percentage of categories with more than 2 tickets. -/
def repeatRate (tickets : List TicketRow) : ℚ :=
  if 0 < (ticketCategories tickets).length then
    (((ticketCategories tickets).filter
        (fun c => decide (2 < (tickets.filter (fun t => categoryKey t == c)).length))).length : ℚ) /
      (ticketCategories tickets).length * 100
  else 0

/-- `calculateRepeatIssueRate`: `round(max(0, 100 - repeatRate))`;
neutral 50 with no tickets this quarter. -/
def calculateRepeatIssueRate (db : ClientDB) : Component :=
  if db.currentTickets.length = 0 then { score := 50 }
  else { score := (jround (max 0 (100 - repeatRate db.currentTickets)) : ℚ) }

/-- `calculateSLAPerformance`: rounded percentage of this quarter's
tickets that met SLA; neutral 50 with no tickets. -/
def calculateSLAPerformance (db : ClientDB) : Component :=
  if db.currentTickets.length = 0 then { score := 50 }
  else { score := (jround ((countSLAMet db.currentTickets : ℚ) / db.currentTickets.length * 100) : ℚ) }

/-- `calculateReopenRate`: `round(max(0, 100 - reopen_pct * 2))`;
neutral 50 with no tickets. -/
def calculateReopenRate (db : ClientDB) : Component :=
  if db.currentTickets.length = 0 then { score := 50 }
  else { score := (jround (max 0 (100 -
    (countReopened db.currentTickets : ℚ) / db.currentTickets.length * 100 * 2)) : ℚ) }

/-- The after-hours test of `calculateAfterHoursIncidents`: weekend, or
before 08:00, or at/after 18:00; tickets without a creation date do not
count. -/
def isAfterHours (t : TicketRow) : Bool :=
  if !t.has_created_date then false
  else t.created_day == 0 || t.created_day == 6 ||
    decide (t.created_hour < 8) || decide (18 ≤ t.created_hour)

/-- `calculateAfterHoursIncidents`: `round(max(0, 100 - pct * 1.5))`;
neutral 50 with no tickets. -/
def calculateAfterHoursIncidents (db : ClientDB) : Component :=
  if db.currentTickets.length = 0 then { score := 50 }
  else { score := (jround (max 0 (100 -
    ((db.currentTickets.filter isAfterHours).length : ℚ) / db.currentTickets.length * 100 * 1.5)) : ℚ) }

/-- The five-component breakdown of the Experience score. -/
structure ExperienceBreakdown where
  tickets_per_user_trend : Component
  repeat_issue_rate : Component
  sla_performance : Component
  reopen_rate : Component
  after_hours_incidents : Component
deriving DecidableEq, Repr

/-- Result of `calculateExperienceScore` (always numeric). -/
structure ExperienceScoreResult where
  score : ℤ
  breakdown : ExperienceBreakdown
deriving DecidableEq, Repr

/-- The Experience component weights, in breakdown order. -/
def experienceWeights : List ℚ := [0.25, 0.20, 0.25, 0.15, 0.15]

/-- The Experience breakdown. -/
def experienceBreakdown (db : ClientDB) : ExperienceBreakdown :=
  { tickets_per_user_trend := calculateTicketsPerUserTrend db
    repeat_issue_rate := calculateRepeatIssueRate db
    sla_performance := calculateSLAPerformance db
    reopen_rate := calculateReopenRate db
    after_hours_incidents := calculateAfterHoursIncidents db }

/-- `calculateExperienceScore`. -/
def calculateExperienceScore (db : ClientDB) : ExperienceScoreResult :=
  { score := jround (weightedTotal
      [(experienceBreakdown db).tickets_per_user_trend.score,
        (experienceBreakdown db).repeat_issue_rate.score,
        (experienceBreakdown db).sla_performance.score,
        (experienceBreakdown db).reopen_rate.score,
        (experienceBreakdown db).after_hours_incidents.score] experienceWeights)
    breakdown := experienceBreakdown db }

/-! ### Risk score (src/engine/risk-score.js) -/

/-- A risk component: score, risk-level label and evidence description
(the claims inspect the label and description). -/
structure RiskComponent where
  score : ℚ
  risk_level : String
  description : String
deriving DecidableEq, Repr

/-- The risk-level labelling shared by the risk components:
`< 25 → Low`, `< 50 → Medium`, else `High`. -/
def riskLevelLabel (s : ℚ) : String :=
  if s < 25 then "Low" else if s < 50 then "Medium" else "High"

/-- The raw identity risk of `calculateIdentityRisk` before rounding:
60% weight on missing MFA coverage, 30% on high-risk users, 10% on
medium-risk users.  Only used with at least one user. -/
def identityRiskRaw (db : ClientDB) : ℚ :=
  (100 - (countMFAEnabled db : ℚ) / countUsers db * 100) * 0.6 +
    (countUsersByRiskLevel db "high" : ℚ) / countUsers db * 100 * 0.3 +
    (countUsersByRiskLevel db "medium" : ℚ) / countUsers db * 100 * 0.1

/-- `calculateIdentityRisk`: neutral 50/"Medium" with no users. -/
def calculateIdentityRisk (db : ClientDB) : RiskComponent :=
  if countUsers db = 0 then
    { score := 50
      risk_level := "Medium"
      description := "No user data available for identity risk assessment" }
  else
    { score := (jround (identityRiskRaw db) : ℚ)
      risk_level := riskLevelLabel (identityRiskRaw db)
      description := toString (countMFAEnabled db) ++ "/" ++ toString (countUsers db) ++
        " users (" ++ toString (jround ((countMFAEnabled db : ℚ) / countUsers db * 100)) ++
        "%) have MFA enabled, " ++ toString (countUsersByRiskLevel db "high") ++
        " users flagged as high risk by Entra ID" }

/-- Open email risks for the client. -/
def openEmailRiskCount (db : ClientDB) : ℕ :=
  ((risksByType db "email").filter (fun r => r.status == "open")).length

/-- The step function of `calculateEmailRisk`: 0 open → 10, ≤3 → 30,
≤10 → 60, else 90. -/
def emailRiskStep (openCount : ℕ) : ℚ :=
  if openCount = 0 then 10
  else if openCount ≤ 3 then 30
  else if openCount ≤ 10 then 60
  else 90

/-- `calculateEmailRisk`. -/
def calculateEmailRisk (db : ClientDB) : RiskComponent :=
  { score := emailRiskStep (openEmailRiskCount db)
    risk_level := riskLevelLabel (emailRiskStep (openEmailRiskCount db))
    description := toString (openEmailRiskCount db) ++ " open email-related security alerts" }

/-- Open endpoint risks for the client. -/
def openEndpointRiskCount (db : ClientDB) : ℕ :=
  ((risksByType db "endpoint").filter (fun r => r.status == "open")).length

/-- The raw endpoint risk of `calculateEndpointRisk` before rounding:
40% weight on unmanaged devices, 30% on critical-health devices, plus
5 points per open endpoint risk capped at 30.  Only used with at least
one device. -/
def endpointRiskRaw (db : ClientDB) : ℚ :=
  ((countDevices db - countManagedDevices db : ℕ) : ℚ) / countDevices db * 100 * 0.4 +
    (countDevicesByHealth db HealthStatus.critical : ℚ) / countDevices db * 100 * 0.3 +
    min ((openEndpointRiskCount db : ℚ) * 5) 30

/-- `calculateEndpointRisk`: neutral 50/"Medium" with no devices. -/
def calculateEndpointRisk (db : ClientDB) : RiskComponent :=
  if countDevices db = 0 then
    { score := 50
      risk_level := "Medium"
      description := "No device data available for endpoint risk assessment" }
  else
    { score := (jround (endpointRiskRaw db) : ℚ)
      risk_level := riskLevelLabel (endpointRiskRaw db)
      description := toString (countDevices db - countManagedDevices db) ++
        " devices missing EDR, " ++ toString (countDevicesByHealth db HealthStatus.critical) ++
        " devices in critical health, " ++ toString (openEndpointRiskCount db) ++
        " open endpoint risks" }

/-- `calculateBusinessModifier`: the fixed medium baseline. -/
def calculateBusinessModifier (_db : ClientDB) : RiskComponent :=
  { score := 40
    risk_level := "Medium"
    description := "Standard business risk profile" }

/-- The four-component breakdown of the Risk score. -/
structure RiskBreakdown where
  identity_risk : RiskComponent
  email_risk : RiskComponent
  endpoint_risk : RiskComponent
  business_modifier : RiskComponent
deriving DecidableEq, Repr

/-- Result of `calculateRiskScore` (always numeric). -/
structure RiskScoreResult where
  score : ℤ
  breakdown : RiskBreakdown
deriving DecidableEq, Repr

/-- The Risk component weights, in breakdown order. -/
def riskWeights : List ℚ := [0.30, 0.25, 0.25, 0.20]

/-- The Risk breakdown. -/
def riskBreakdown (db : ClientDB) : RiskBreakdown :=
  { identity_risk := calculateIdentityRisk db
    email_risk := calculateEmailRisk db
    endpoint_risk := calculateEndpointRisk db
    business_modifier := calculateBusinessModifier db }

/-- `calculateRiskScore`. -/
def calculateRiskScore (db : ClientDB) : RiskScoreResult :=
  { score := jround (weightedTotal
      [(riskBreakdown db).identity_risk.score, (riskBreakdown db).email_risk.score,
        (riskBreakdown db).endpoint_risk.score, (riskBreakdown db).business_modifier.score]
      riskWeights)
    breakdown := riskBreakdown db }

/-! ### Adapters (src/adapters) -/

/-- The typed adapter error (`AdapterError` of base-adapter.js). -/
structure AdapterError where
  message : String
  details : String
  statusCode : ℕ
deriving DecidableEq, Repr

/-- Credentials are a JS object: present fields with string values.
`none` models a missing / non-object credentials value. -/
def Credentials : Type := List (String × String)

/-- Field lookup on a credentials object. -/
def credentialField (creds : Credentials) (field : String) : Option String :=
  (List.find? (fun p => p.1 == field) creds).map (fun p => p.2)

/-- JS truthiness of `credentials[field]`: present and non-empty. -/
def fieldTruthy (creds : Credentials) (field : String) : Bool :=
  match credentialField creds field with
  | none => false
  | some v => v != ""

/-- `BaseAdapter.validateCredentials`: reject a missing object, then
reject when any required field is falsy, both with status 400. -/
def validateCredentials (credentials : Option Credentials)
    (requiredFields : List String) : Except AdapterError Unit :=
  match credentials with
  | none => .error ⟨"Invalid credentials", "Credentials must be an object", 400⟩
  | some creds =>
    let missing := requiredFields.filter (fun f => !fieldTruthy creds f)
    if missing.isEmpty then .ok ()
    else .error ⟨"Missing required credentials",
      "Missing fields: " ++ String.intercalate ", " missing, 400⟩

/-- The Immy adapter's declared required credential fields. -/
def immyRequiredFields : List String := ["apiKey", "baseUrl"]

/-- The validation `ImmyAdapter.sync` performs as its first statement,
before `initializeClient` and any network fetch. -/
def immySyncValidation (credentials : Option Credentials) : Except AdapterError Unit :=
  validateCredentials credentials immyRequiredFields

/-- The full (unexported) `M365Adapter` class's required fields. -/
def m365RequiredFields : List String := ["tenantId", "clientId", "clientSecret"]

/-- The validation `M365Adapter.sync` performs as its first statement. -/
def m365SyncValidation (credentials : Option Credentials) : Except AdapterError Unit :=
  validateCredentials credentials m365RequiredFields

/-- A normalized device as built by `ImmyAdapter.normalizeDevice`
(entity-reference fields left for the caller are omitted). -/
structure NormalizedDevice where
  external_id : Option String
  name : Option String
  managed : Bool
  health_status : HealthStatus
deriving DecidableEq, Repr

/-- The fields of an Immy.Bot computer record the device normalizer
reads (each may be absent). -/
structure ImmyComputer where
  id : Option String
  computerId : Option String
  name : Option String
  computerName : Option String
  status : Option String
  health : Option String
deriving DecidableEq, Repr

/-- JS `a || b` over possibly-absent strings (an empty string is
falsy). -/
def jsOrStr : Option String → Option String → Option String
  | some s, b => if s = "" then b else some s
  | none, b => b

/-- JS `haystack` starts with `needle` (on character lists). -/
def startsWithChars : List Char → List Char → Bool
  | [], _ => true
  | _ :: _, [] => false
  | a :: as, b :: bs => a == b && startsWithChars as bs

/-- JS `String#includes`: `sub` occurs somewhere in `hay`. -/
def containsChars (hay sub : List Char) : Bool :=
  match hay with
  | [] => sub.isEmpty
  | _ :: t => startsWithChars sub hay || containsChars t sub

/-- JS `s.includes(sub)`. -/
def jsIncludes (s sub : String) : Bool :=
  containsChars s.data sub.data

/-- JS `s.toLowerCase()` (characterwise; the vendor status strings are
ASCII). -/
def jsToLowerCase (s : String) : String :=
  String.mk (s.data.map Char.toLower)

/-- The pattern chain of `mapImmyHealthStatus` on the lowercased
status string. -/
def mapImmyHealthLower (lower : String) : HealthStatus :=
  if jsIncludes lower "healthy" || jsIncludes lower "compliant" || jsIncludes lower "pass" then
    HealthStatus.healthy
  else if jsIncludes lower "warning" || jsIncludes lower "drift" then
    HealthStatus.warning
  else if jsIncludes lower "critical" || jsIncludes lower "fail" || jsIncludes lower "non-compliant" then
    HealthStatus.critical
  else
    HealthStatus.healthy

/-- `ImmyAdapter.mapImmyHealthStatus`: a falsy (absent or empty) status
is `unknown`; otherwise the lowercased string is matched against the
pattern chain, whose final fallback is `healthy`. -/
def mapImmyHealthStatus : Option String → HealthStatus
  | none => HealthStatus.unknown
  | some s => if s = "" then HealthStatus.unknown else mapImmyHealthLower (jsToLowerCase s)

/-- `ImmyAdapter.normalizeDevice` (the fields the claims inspect). -/
def normalizeDevice (computer : ImmyComputer) : NormalizedDevice :=
  { external_id := jsOrStr computer.id computer.computerId
    name := jsOrStr computer.name computer.computerName
    managed := true
    health_status := mapImmyHealthStatus (jsOrStr computer.status computer.health) }

/-- The normalized batch an adapter returns.  Only the entity lists the
two adapters in the repository ever populate are modelled; the other
six lists are always empty in both adapters. -/
structure NormalizedBatch where
  users : List UserRow
  devices : List NormalizedDevice
  controls : List ControlRow
  risks : List RiskRow
deriving DecidableEq, Repr

/-- The all-empty batch. -/
def emptyBatch : NormalizedBatch := ⟨[], [], [], []⟩

/-- `M365AdapterSimplified.sync` — the class actually exported by
m365-adapter.js and instantiated by the `/sync/m365` route: it performs
no credential validation and returns the empty normalized structure. -/
def m365SimplifiedSync (_credentials : Option Credentials) :
    Except AdapterError NormalizedBatch :=
  .ok emptyBatch

/-! ### Narrative generator (src/qbr/narrative-generator.js) -/

/-- A recommendation produced by the LLM: a title and an evidence list
of citation strings (`none` models a missing `evidence` property). -/
structure Recommendation where
  title : String
  evidence : Option (List String)
deriving DecidableEq, Repr

/-- `!rec.evidence || rec.evidence.length === 0`. -/
def evidenceEmpty (rec : Recommendation) : Bool :=
  match rec.evidence with
  | none => true
  | some l => l.isEmpty

/-- A ticket in the narrative input (`input.recent_tickets`). -/
structure InputTicket where
  id : ℕ
  external_id : String
deriving DecidableEq, Repr

/-- A device in the narrative input (`input.lifecycle_items`). -/
structure LifecycleItem where
  name : String
deriving DecidableEq, Repr

/-- The slices of the narrative input the citation validator reads
(`none` models an absent property, read with `?.`). -/
structure NarrativeInput where
  recent_tickets : Option (List InputTicket)
  lifecycle_items : Option (List LifecycleItem)
deriving DecidableEq, Repr

/-- The error classes of the narrative generator. -/
inductive NarrativeError
  | hallucinationDetected (message : String)
  | openAIError (message : String) (details : String)
deriving DecidableEq, Repr

/-- `error.message` of a narrative error. -/
def narrativeErrorMessage : NarrativeError → String
  | .hallucinationDetected m => m
  | .openAIError m _ => m

/-- Match `/\[Ticket #(\d+)\]/` starting right after the literal
`[Ticket #`: one or more digits immediately followed by `]`. -/
def matchTicketDigits (cs : List Char) : Option String :=
  let digits := cs.takeWhile Char.isDigit
  if digits.isEmpty then none
  else
    match cs.drop digits.length with
    | ']' :: _ => some (String.mk digits)
    | _ => none

/-- First match of `/\[Ticket #(\d+)\]/` anywhere in the string
(scanning position by position, as `String#match` does). -/
def findTicketCitation : List Char → Option String
  | [] => none
  | c :: rest =>
    if startsWithChars "[Ticket #".data (c :: rest) then
      match matchTicketDigits ((c :: rest).drop 9) with
      | some ds => some ds
      | none => findTicketCitation rest
    else findTicketCitation rest

/-- Match `/\[Device: ([^\]]+)\]/` starting right after the literal
`[Device: `: one or more non-`]` characters followed by `]`. -/
def matchDeviceName (cs : List Char) : Option String :=
  let nm := cs.takeWhile (fun c => c != ']')
  if nm.isEmpty then none
  else
    match cs.drop nm.length with
    | ']' :: _ => some (String.mk nm)
    | _ => none

/-- First match of `/\[Device: ([^\]]+)\]/` anywhere in the string. -/
def findDeviceCitation : List Char → Option String
  | [] => none
  | c :: rest =>
    if startsWithChars "[Device: ".data (c :: rest) then
      match matchDeviceName ((c :: rest).drop 9) with
      | some nm => some nm
      | none => findDeviceCitation rest
    else findDeviceCitation rest

/-- `input.recent_tickets?.some(t => t.external_id === id ||
t.id.toString() === id)`. -/
def ticketExists (input : NarrativeInput) (ticketId : String) : Bool :=
  match input.recent_tickets with
  | none => false
  | some ts => ts.any (fun t => t.external_id == ticketId || toString t.id == ticketId)

/-- `input.lifecycle_items?.some(d => d.name === name)`. -/
def deviceExists (input : NarrativeInput) (deviceName : String) : Bool :=
  match input.lifecycle_items with
  | none => false
  | some ds => ds.any (fun d => d.name == deviceName)

/-- The warnings `validateCitations` logs for one citation string: an
unresolved ticket or device reference is flagged, never fatal. -/
def citationWarnings (input : NarrativeInput) (citation : String) : List String :=
  (match findTicketCitation citation.data with
    | some tid =>
      if ticketExists input tid then []
      else ["Ticket #" ++ tid ++ " cited but not found in data"]
    | none => []) ++
  (match findDeviceCitation citation.data with
    | some nm =>
      if deviceExists input nm then []
      else ["Device \"" ++ nm ++ "\" cited but not found in data"]
    | none => [])

/-- `NarrativeGenerator.validateCitations`: throws the hallucination
error at the first recommendation with empty (or missing) evidence;
otherwise collects the per-citation warnings and succeeds. -/
def validateCitations (recs : List Recommendation) (input : NarrativeInput) :
    Except NarrativeError (List String) :=
  match recs with
  | [] => .ok []
  | rec :: rest =>
    if evidenceEmpty rec then
      .error (.hallucinationDetected
        ("Recommendation \"" ++ rec.title ++ "\" has no evidence citations"))
    else
      match validateCitations rest input with
      | .error e => .error e
      | .ok ws => .ok (((rec.evidence.getD []).map (citationWarnings input)).flatten ++ ws)

/-- The narrative returned by `generateNarrative`. -/
structure Narrative where
  trends : String
  executive_summary : String
  recommendations : List Recommendation
  discussion_points : List String
deriving DecidableEq, Repr

/-- The tail of `NarrativeGenerator.generateNarrative` once the four
LLM jobs have produced their outputs: run the citation gate, and wrap
any thrown error into `OpenAIError('Failed to generate narrative',
error.message)` via the surrounding `try`/`catch`. -/
def generateNarrativeFinish (trends executiveSummary : String)
    (recommendations : List Recommendation) (discussionPoints : List String)
    (input : NarrativeInput) : Except NarrativeError Narrative :=
  match validateCitations recommendations input with
  | .error e => .error (.openAIError "Failed to generate narrative" (narrativeErrorMessage e))
  | .ok _ => .ok ⟨trends, executiveSummary, recommendations, discussionPoints⟩

/-! ### Concrete inputs used by witnesses and counterexamples -/

/-- A client with no data at all. -/
def dbEmpty : ClientDB := ⟨[], [], [], [], [], []⟩

/-- A client with a single managed healthy device and nothing else. -/
def db1 : ClientDB := ⟨[⟨true, HealthStatus.healthy⟩], [], [], [], [], []⟩

/-- A ticket with no category, SLA met, never reopened, no creation
date. -/
def blankTicket : TicketRow := ⟨none, true, 0, false, 0, 0⟩

/-- One user, 4 tickets this quarter versus 5 last quarter: tickets per
user moved from 5.0 to 4.0, a change of exactly −20%. -/
def db3 : ClientDB :=
  ⟨[], [⟨false, "none"⟩], [], List.replicate 4 blankTicket, List.replicate 5 blankTicket, []⟩

/-- The end-to-end Standards scenario: 50 devices of which 45 managed
and 42 healthy, 50 controls of which 40 pass overall, and a secure-score
pass rate of 72% (25 secure-score controls, 18 passing). -/
def db8 : ClientDB :=
  { devices := List.replicate 42 ⟨true, .healthy⟩ ++ List.replicate 3 ⟨true, .warning⟩ ++
      List.replicate 5 ⟨false, .warning⟩
    users := []
    controls := List.replicate 22 ⟨"immy_baseline", .pass⟩ ++
      List.replicate 3 ⟨"immy_baseline", .fail⟩ ++
      List.replicate 18 ⟨"m365_secure_score", .pass⟩ ++
      List.replicate 7 ⟨"m365_secure_score", .fail⟩
    currentTickets := []
    previousTickets := []
    risks := [] }

/-- A rational lies in the score range 0–100. -/
def within100 (q : ℚ) : Prop := 0 ≤ q ∧ q ≤ 100

/-- An integer lies in the score range 0–100. -/
def within100Z (n : ℤ) : Prop := 0 ≤ n ∧ n ≤ 100

/-! ### Shared lemmas -/

lemma jround_nonneg {q : ℚ} (h : 0 ≤ q) : 0 ≤ jround q := by
  rw [jround]
  exact Int.le_floor.mpr (by push_cast; linarith)

lemma jround_le {q : ℚ} {n : ℤ} (h : q ≤ n) : jround q ≤ n := by
  rw [jround]
  have hn : (⌊(n : ℚ) + 1/2⌋ : ℤ) = n := by
    rw [add_comm, Int.floor_add_int]
    norm_num
  calc ⌊q + 1/2⌋ ≤ ⌊(n : ℚ) + 1/2⌋ := Int.floor_le_floor (by linarith)
    _ = n := hn

lemma jround_cast_bounds {q : ℚ} (h0 : 0 ≤ q) (h1 : q ≤ 100) :
    0 ≤ ((jround q : ℤ) : ℚ) ∧ ((jround q : ℤ) : ℚ) ≤ 100 := by
  have a := jround_nonneg h0
  have b := jround_le (n := 100) (by exact_mod_cast h1)
  constructor
  · exact_mod_cast a
  · exact_mod_cast b

lemma ratio_pct_nonneg (a b : ℕ) : 0 ≤ (a : ℚ) / b * 100 := by positivity

lemma ratio_pct_le_100 {a b : ℕ} (h : a ≤ b) : (a : ℚ) / b * 100 ≤ 100 := by
  rcases Nat.eq_zero_or_pos b with hb | hb
  · subst hb
    simp
  · have hb' : (0 : ℚ) < b := by exact_mod_cast hb
    have hd : (a : ℚ) / b ≤ 1 := by
      rw [div_le_one hb']
      exact_mod_cast h
    nlinarith

lemma within100_jround {q : ℚ} (h : within100 q) : within100 ((jround q : ℤ) : ℚ) :=
  jround_cast_bounds h.1 h.2

lemma within100_ratio_pct {a b : ℕ} (h : a ≤ b) : within100 ((a : ℚ) / b * 100) :=
  ⟨ratio_pct_nonneg a b, ratio_pct_le_100 h⟩

lemma jround_within {q : ℚ} (h : within100 q) : within100Z (jround q) :=
  ⟨jround_nonneg h.1, jround_le (by exact_mod_cast h.2)⟩

lemma deviceCoverage_within (t m : ℕ) : within100 (calculateDeviceCoverage t m).score := by
  rw [calculateDeviceCoverage]
  constructor
  · exact le_min (by split_ifs <;> positivity) (by norm_num)
  · exact min_le_right _ _

lemma immy_within (db : ClientDB) : within100 (calculateImmyCompliance db).score := by
  rw [calculateImmyCompliance]
  split_ifs with h
  · exact ⟨le_refl 0, by norm_num⟩
  · exact within100_jround (within100_ratio_pct
      (le_trans (Nat.le_add_right _ _) (Nat.le_add_right _ _)))

lemma patch_within (db : ClientDB) : within100 (calculatePatchCompliance db).score := by
  rw [calculatePatchCompliance]
  split_ifs with h
  · exact ⟨le_refl 0, by norm_num⟩
  · exact within100_jround (within100_ratio_pct (List.length_filter_le _ _))

lemma edr_within (db : ClientDB) : within100 (calculateEDRHealth db).score := by
  rw [calculateEDRHealth]
  split_ifs with h
  · exact ⟨le_refl 0, by norm_num⟩
  · exact within100_jround (within100_ratio_pct (List.length_filter_le _ _))

lemma getPassRate_within (db : ClientDB) (t : String) : within100 (getPassRate db t) := by
  rw [getPassRate]
  split_ifs with h
  · exact ⟨le_refl 0, by norm_num⟩
  · exact within100_ratio_pct (List.length_filter_le _ _)

lemma m365_within (db : ClientDB) : within100 (calculateM365SecureScore db).score := by
  rw [calculateM365SecureScore]
  split_ifs with h
  · exact ⟨le_refl 0, by norm_num⟩
  · exact within100_jround (getPassRate_within db _)

lemma trend_within (db : ClientDB) : within100 (calculateTicketsPerUserTrend db).score := by
  rw [calculateTicketsPerUserTrend]
  split_ifs with h
  · exact ⟨by norm_num, by norm_num⟩
  · rw [trendStepScore]
    split_ifs <;> exact ⟨by norm_num, by norm_num⟩

lemma repeatRate_nonneg (tickets : List TicketRow) : 0 ≤ repeatRate tickets := by
  rw [repeatRate]
  split_ifs <;> positivity

lemma clamp_within {x : ℚ} (h : 0 ≤ x) : within100 (max 0 (100 - x)) :=
  ⟨le_max_left _ _, max_le (by norm_num) (by linarith)⟩

lemma repeat_within (db : ClientDB) : within100 (calculateRepeatIssueRate db).score := by
  rw [calculateRepeatIssueRate]
  split_ifs with h
  · exact ⟨by norm_num, by norm_num⟩
  · exact within100_jround (clamp_within (repeatRate_nonneg _))

lemma sla_within (db : ClientDB) : within100 (calculateSLAPerformance db).score := by
  rw [calculateSLAPerformance]
  split_ifs with h
  · exact ⟨by norm_num, by norm_num⟩
  · exact within100_jround (within100_ratio_pct (List.length_filter_le _ _))

lemma reopen_within (db : ClientDB) : within100 (calculateReopenRate db).score := by
  rw [calculateReopenRate]
  split_ifs with h
  · exact ⟨by norm_num, by norm_num⟩
  · refine within100_jround (clamp_within ?_)
    have := ratio_pct_nonneg (countReopened db.currentTickets) db.currentTickets.length
    linarith

lemma afterhours_within (db : ClientDB) : within100 (calculateAfterHoursIncidents db).score := by
  rw [calculateAfterHoursIncidents]
  split_ifs with h
  · exact ⟨by norm_num, by norm_num⟩
  · refine within100_jround (clamp_within ?_)
    have := ratio_pct_nonneg (db.currentTickets.filter isAfterHours).length
      db.currentTickets.length
    linarith

lemma identityRiskRaw_within (db : ClientDB) : within100 (identityRiskRaw db) := by
  rw [identityRiskRaw]
  obtain ⟨a1, a2⟩ := within100_ratio_pct (a := countMFAEnabled db) (b := countUsers db)
    (List.length_filter_le _ _)
  obtain ⟨b1, b2⟩ := within100_ratio_pct (a := countUsersByRiskLevel db "high")
    (b := countUsers db) (List.length_filter_le _ _)
  obtain ⟨c1, c2⟩ := within100_ratio_pct (a := countUsersByRiskLevel db "medium")
    (b := countUsers db) (List.length_filter_le _ _)
  constructor <;> nlinarith

lemma identity_within (db : ClientDB) : within100 (calculateIdentityRisk db).score := by
  rw [calculateIdentityRisk]
  split_ifs with h
  · exact ⟨by norm_num, by norm_num⟩
  · exact within100_jround (identityRiskRaw_within db)

lemma email_within (db : ClientDB) : within100 (calculateEmailRisk db).score := by
  show within100 (emailRiskStep _)
  rw [emailRiskStep]
  split_ifs <;> exact ⟨by norm_num, by norm_num⟩

lemma endpointRiskRaw_within (db : ClientDB) : within100 (endpointRiskRaw db) := by
  rw [endpointRiskRaw]
  obtain ⟨a1, a2⟩ := within100_ratio_pct (a := countDevices db - countManagedDevices db)
    (b := countDevices db) (Nat.sub_le _ _)
  obtain ⟨b1, b2⟩ := within100_ratio_pct (a := countDevicesByHealth db HealthStatus.critical)
    (b := countDevices db) (List.length_filter_le _ _)
  have m1 : (0 : ℚ) ≤ min ((openEndpointRiskCount db : ℚ) * 5) 30 :=
    le_min (by positivity) (by norm_num)
  have m2 : min ((openEndpointRiskCount db : ℚ) * 5) 30 ≤ 30 := min_le_right _ _
  constructor <;> nlinarith

lemma endpoint_within (db : ClientDB) : within100 (calculateEndpointRisk db).score := by
  rw [calculateEndpointRisk]
  split_ifs with h
  · exact ⟨by norm_num, by norm_num⟩
  · exact within100_jround (endpointRiskRaw_within db)

lemma business_within (db : ClientDB) : within100 (calculateBusinessModifier db).score :=
  ⟨by norm_num [calculateBusinessModifier], by norm_num [calculateBusinessModifier]⟩

lemma weighted5_within {a b c d e w1 w2 w3 w4 w5 : ℚ}
    (ha : within100 a) (hb : within100 b) (hc : within100 c) (hd : within100 d)
    (he : within100 e) (hw1 : 0 ≤ w1) (hw2 : 0 ≤ w2) (hw3 : 0 ≤ w3) (hw4 : 0 ≤ w4)
    (hw5 : 0 ≤ w5) (hsum : w1 + w2 + w3 + w4 + w5 = 1) :
    within100 (weightedTotal [a, b, c, d, e] [w1, w2, w3, w4, w5]) := by
  obtain ⟨a1, a2⟩ := ha
  obtain ⟨b1, b2⟩ := hb
  obtain ⟨c1, c2⟩ := hc
  obtain ⟨d1, d2⟩ := hd
  obtain ⟨e1, e2⟩ := he
  simp only [weightedTotal, List.zip, List.zipWith, List.map, List.sum_cons, List.sum_nil]
  constructor <;> nlinarith

lemma weighted4_within {a b c d w1 w2 w3 w4 : ℚ}
    (ha : within100 a) (hb : within100 b) (hc : within100 c) (hd : within100 d)
    (hw1 : 0 ≤ w1) (hw2 : 0 ≤ w2) (hw3 : 0 ≤ w3) (hw4 : 0 ≤ w4)
    (hsum : w1 + w2 + w3 + w4 = 1) :
    within100 (weightedTotal [a, b, c, d] [w1, w2, w3, w4]) := by
  obtain ⟨a1, a2⟩ := ha
  obtain ⟨b1, b2⟩ := hb
  obtain ⟨c1, c2⟩ := hc
  obtain ⟨d1, d2⟩ := hd
  simp only [weightedTotal, List.zip, List.zipWith, List.map, List.sum_cons, List.sum_nil]
  constructor <;> nlinarith

lemma db1_eval : calculateStandardsScore db1 =
    ⟨some 55, none, some ⟨⟨100⟩, ⟨0⟩, ⟨100⟩, ⟨100⟩, ⟨0⟩⟩⟩ := by
  norm_num [calculateStandardsScore, standardsBreakdown, calculateDeviceCoverage,
    calculateImmyCompliance, calculatePatchCompliance, calculateEDRHealth,
    calculateM365SecureScore, totalControlsCount, countControlsByStatus,
    countDevices, countManagedDevices, countDevicesByHealth, getPassRate,
    weightedTotal, standardsWeights, jround, db1, min_def]

lemma db3_trend : trendPercentage db3 = -20 := by
  rw [trendPercentage]
  norm_num [db3, countUsers]

lemma db8_dev : countDevices db8 = 50 := by decide

lemma db8_mng : countManagedDevices db8 = 45 := by decide

lemma db8_healthy : countDevicesByHealth db8 HealthStatus.healthy = 42 := by decide

lemma db8_pass : countControlsByStatus db8 ControlStatus.pass = 40 := by decide

lemma db8_fail : countControlsByStatus db8 ControlStatus.fail = 10 := by decide

lemma db8_unk : countControlsByStatus db8 ControlStatus.unknown = 0 := by decide

lemma db8_m365_filter :
    (db8.controls.filter (fun c => c.control_type == "m365_secure_score")).length = 25 := by
  decide

lemma db8_m365_pass :
    ((db8.controls.filter (fun c => c.control_type == "m365_secure_score")).filter
      (fun c => c.status == ControlStatus.pass)).length = 18 := by
  decide

lemma db8_passrate : getPassRate db8 "m365_secure_score" = 72 := by
  rw [getPassRate, db8_m365_filter, db8_m365_pass, if_neg (by norm_num)]
  norm_num

lemma db8_eval : calculateStandardsScore db8 =
    ⟨some 83, none, some ⟨⟨90⟩, ⟨80⟩, ⟨84⟩, ⟨90⟩, ⟨72⟩⟩⟩ := by
  rw [calculateStandardsScore]
  rw [if_neg (by rw [db8_dev]; norm_num)]
  have hb : standardsBreakdown db8 = ⟨⟨90⟩, ⟨80⟩, ⟨84⟩, ⟨90⟩, ⟨72⟩⟩ := by
    rw [standardsBreakdown, calculateDeviceCoverage, calculateImmyCompliance,
      calculatePatchCompliance, calculateEDRHealth, calculateM365SecureScore,
      totalControlsCount, db8_dev, db8_mng, db8_healthy, db8_pass, db8_fail, db8_unk,
      db8_passrate]
    norm_num [jround, min_def]
  rw [hb]
  norm_num [weightedTotal, standardsWeights, jround]

lemma validateCredentials_missing (creds : Credentials) (required : List String)
    (f : String) (hf : f ∈ required) (ht : fieldTruthy creds f = false) :
    ∃ e, validateCredentials (some creds) required = .error e ∧ e.statusCode = 400 := by
  have hm : f ∈ required.filter (fun g => !fieldTruthy creds g) :=
    List.mem_filter.mpr ⟨hf, by simp [ht]⟩
  have hne : (required.filter (fun g => !fieldTruthy creds g)).isEmpty = false := by
    rcases hl : required.filter (fun g => !fieldTruthy creds g) with _ | ⟨a, l⟩
    · rw [hl] at hm
      cases hm
    · rfl
  refine ⟨⟨"Missing required credentials",
    "Missing fields: " ++ String.intercalate ", "
      (required.filter (fun g => !fieldTruthy creds g)), 400⟩, ?_, rfl⟩
  show (if (required.filter (fun g => !fieldTruthy creds g)).isEmpty = true
    then Except.ok () else _) = _
  rw [hne]
  simp

lemma validateCitations_error_iff (recs : List Recommendation) (input : NarrativeInput) :
    (∃ m, validateCitations recs input = .error (.hallucinationDetected m)) ↔
      ∃ r ∈ recs, evidenceEmpty r = true := by
  induction recs with
  | nil =>
    constructor
    · rintro ⟨m, hm⟩
      exact absurd hm (by simp [validateCitations])
    · rintro ⟨r, hr, _⟩
      cases hr
  | cons r rest ih =>
    by_cases hr : evidenceEmpty r = true
    · constructor
      · intro _
        exact ⟨r, List.mem_cons_self r rest, hr⟩
      · intro _
        refine ⟨"Recommendation \"" ++ r.title ++ "\" has no evidence citations", ?_⟩
        show (if evidenceEmpty r = true then _ else _) = _
        rw [if_pos hr]
    · have hv : validateCitations (r :: rest) input =
          (match validateCitations rest input with
          | .error e => .error e
          | .ok ws =>
            .ok (((r.evidence.getD []).map (citationWarnings input)).flatten ++ ws)) := by
        show (if evidenceEmpty r = true then _ else _) = _
        rw [if_neg hr]
      constructor
      · rintro ⟨m, hm⟩
        rw [hv] at hm
        cases hrest : validateCitations rest input with
        | error e =>
          rw [hrest] at hm
          have he : e = .hallucinationDetected m := by
            simpa using hm
          obtain ⟨r', hr', he'⟩ := ih.mp ⟨m, by rw [hrest, he]⟩
          exact ⟨r', List.mem_cons_of_mem r hr', he'⟩
        | ok ws =>
          rw [hrest] at hm
          exact absurd hm (by simp)
      · rintro ⟨r', hr', he'⟩
        rcases List.mem_cons.mp hr' with rfl | hmem
        · exact absurd he' hr
        · obtain ⟨m, hm⟩ := ih.mpr ⟨r', hmem, he'⟩
          rw [hv, hm]
          exact ⟨m, rfl⟩

lemma validateCitations_ok (recs : List Recommendation) (input : NarrativeInput)
    (h : ∀ r ∈ recs, evidenceEmpty r = false) :
    ∃ ws, validateCitations recs input = .ok ws := by
  induction recs with
  | nil => exact ⟨[], rfl⟩
  | cons r rest ih =>
    have hr : ¬ evidenceEmpty r = true := by
      simp [h r (List.mem_cons_self r rest)]
    obtain ⟨ws, hws⟩ := ih (fun r' h' => h r' (List.mem_cons_of_mem r h'))
    refine ⟨((r.evidence.getD []).map (citationWarnings input)).flatten ++ ws, ?_⟩
    show (if evidenceEmpty r = true then _ else _) = _
    rw [if_neg hr, hws]

lemma validateCitations_error_shape (recs : List Recommendation) (input : NarrativeInput)
    (e : NarrativeError) (h : validateCitations recs input = .error e) :
    ∃ m, e = .hallucinationDetected m := by
  induction recs with
  | nil => exact absurd h (by simp [validateCitations])
  | cons r rest ih =>
    by_cases hr : evidenceEmpty r = true
    · have hv : validateCitations (r :: rest) input =
          .error (.hallucinationDetected
            ("Recommendation \"" ++ r.title ++ "\" has no evidence citations")) := by
        show (if evidenceEmpty r = true then _ else _) = _
        rw [if_pos hr]
      rw [hv] at h
      exact ⟨_, (by simpa using h.symm)⟩
    · have hv : validateCitations (r :: rest) input =
          (match validateCitations rest input with
          | .error e => .error e
          | .ok ws =>
            .ok (((r.evidence.getD []).map (citationWarnings input)).flatten ++ ws)) := by
        show (if evidenceEmpty r = true then _ else _) = _
        rw [if_neg hr]
      rw [hv] at h
      cases hrest : validateCitations rest input with
      | error e' =>
        rw [hrest] at h
        have he : e' = e := by simpa using h
        exact ih (he ▸ hrest)
      | ok ws =>
        rw [hrest] at h
        exact absurd h (by simp)

/-! ### Claim theorems -/

/-- Claim C1: with zero devices, `calculateStandardsScore` returns
score `null` with the error string `Insufficient data: no devices
found` and an empty breakdown, whatever other data the client has; with
at least one device it always returns a numeric score and breakdown,
and a zero denominator in a component (no controls at all, or no
secure-score controls) makes that component score 0 rather than null. -/
theorem standards_insufficient_data_policy (db : ClientDB) :
    (db.devices = [] →
      calculateStandardsScore db =
        ⟨none, some "Insufficient data: no devices found", none⟩) ∧
    (db.devices ≠ [] → ∃ s b, calculateStandardsScore db = ⟨some s, none, some b⟩ ∧
      (db.controls = [] → b.immy_compliance.score = 0) ∧
      (db.controls.filter (fun c => c.control_type == "m365_secure_score") = [] →
        b.m365_secure_score.score = 0)) := by
  constructor
  · intro h
    simp [calculateStandardsScore, countDevices, h]
  · intro h
    have h0 : ¬ countDevices db = 0 := by
      simpa [countDevices, List.length_eq_zero] using h
    refine ⟨jround (weightedTotal
        [(standardsBreakdown db).device_coverage.score,
          (standardsBreakdown db).immy_compliance.score,
          (standardsBreakdown db).patch_compliance.score,
          (standardsBreakdown db).edr_health.score,
          (standardsBreakdown db).m365_secure_score.score] standardsWeights),
      standardsBreakdown db, by simp [calculateStandardsScore, h0], ?_, ?_⟩
    · intro hc
      simp [standardsBreakdown, calculateImmyCompliance, totalControlsCount,
        countControlsByStatus, hc]
    · intro hc
      simp [standardsBreakdown, calculateM365SecureScore, getPassRate, hc]

/-- Witness for C1: the empty client is refused with the exact
insufficient-data result, and a one-device client with no controls gets
a numeric score with zeroed control components. -/
theorem standards_insufficient_data_policy_witness :
    calculateStandardsScore dbEmpty =
      ⟨none, some "Insufficient data: no devices found", none⟩ ∧
    ∃ s b, calculateStandardsScore db1 = ⟨some s, none, some b⟩ ∧
      b.immy_compliance.score = 0 ∧ b.m365_secure_score.score = 0 := by
  constructor
  · exact (standards_insufficient_data_policy dbEmpty).1 rfl
  · obtain ⟨s, b, h1, h2, h3⟩ :=
      (standards_insufficient_data_policy db1).2 (by simp [db1])
    exact ⟨s, b, h1, h2 rfl, h3 rfl⟩

/-- Claim C2: whenever a numeric total is produced, it is the rounded
weighted sum of the breakdown components, and the weight lists of the
three calculators each sum to exactly 1. -/
theorem total_scores_are_rounded_weighted_sums (db : ClientDB) :
    (∀ s b, calculateStandardsScore db = ⟨some s, none, some b⟩ →
      s = jround (b.device_coverage.score * 0.20 + b.immy_compliance.score * 0.30 +
        b.patch_compliance.score * 0.20 + b.edr_health.score * 0.15 +
        b.m365_secure_score.score * 0.15)) ∧
    (calculateRiskScore db).score = jround (
        (calculateRiskScore db).breakdown.identity_risk.score * 0.30 +
        (calculateRiskScore db).breakdown.email_risk.score * 0.25 +
        (calculateRiskScore db).breakdown.endpoint_risk.score * 0.25 +
        (calculateRiskScore db).breakdown.business_modifier.score * 0.20) ∧
    (calculateExperienceScore db).score = jround (
        (calculateExperienceScore db).breakdown.tickets_per_user_trend.score * 0.25 +
        (calculateExperienceScore db).breakdown.repeat_issue_rate.score * 0.20 +
        (calculateExperienceScore db).breakdown.sla_performance.score * 0.25 +
        (calculateExperienceScore db).breakdown.reopen_rate.score * 0.15 +
        (calculateExperienceScore db).breakdown.after_hours_incidents.score * 0.15) ∧
    standardsWeights.sum = 1 ∧ riskWeights.sum = 1 ∧ experienceWeights.sum = 1 := by
  refine ⟨?_, ?_, ?_, by norm_num [standardsWeights], by norm_num [riskWeights],
    by norm_num [experienceWeights]⟩
  · intro s b h
    by_cases h0 : countDevices db = 0
    · simp [calculateStandardsScore, h0] at h
    · simp [calculateStandardsScore, h0] at h
      obtain ⟨hs, hb⟩ := h
      subst hb
      rw [← hs]
      congr 1
      simp [weightedTotal, standardsWeights]
      ring
  · show (calculateRiskScore db).score = _
    simp only [calculateRiskScore]
    congr 1
    simp [weightedTotal, riskWeights]
    ring
  · simp only [calculateExperienceScore]
    congr 1
    simp [weightedTotal, experienceWeights]
    ring

/-- Witness for C2: the one-device client's Standards total 55 really
is the rounded weighted sum 100×0.20 + 0×0.30 + 100×0.20 + 100×0.15 +
0×0.15. -/
theorem total_scores_are_rounded_weighted_sums_witness :
    (55 : ℤ) = jround ((100 : ℚ) * 0.20 + 0 * 0.30 + 100 * 0.20 + 100 * 0.15 + 0 * 0.15) :=
  (total_scores_are_rounded_weighted_sums db1).1 55
    ⟨⟨100⟩, ⟨0⟩, ⟨100⟩, ⟨100⟩, ⟨0⟩⟩ db1_eval

/-- Counterexample to claim C3: the step thresholds in the code are
strict, so a quarter-over-quarter change of exactly −20% scores 75, not
the 90 the claim requires for changes ≤ −20%. -/
theorem trend_boundary_counterexample :
    trendPercentage db3 = -20 ∧ (calculateTicketsPerUserTrend db3).score = 75 ∧
      ((75 : ℚ) ≠ 90) := by
  refine ⟨db3_trend, ?_, by norm_num⟩
  rw [calculateTicketsPerUserTrend, if_neg (by norm_num [db3, countUsers]), trendStepScore,
    db3_trend]
  norm_num

/-- Claim C3 as amended: for a client with at least one user the
tickets-per-user-trend component is the strict step function of the
percent change: < −20% gives 90, −20% up to (excluding) −10% gives 75,
−10% up to 0% gives 60, exactly 0% gives 50, up to 10% gives 40, up to
20% gives 30, and 20% or more gives 20 — so exactly −20% gives 75 and
exactly −10% gives 60. -/
theorem tickets_trend_step_strict (db : ClientDB) (h : db.users ≠ []) :
    (trendPercentage db < -20 → (calculateTicketsPerUserTrend db).score = 90) ∧
    (-20 ≤ trendPercentage db → trendPercentage db < -10 →
      (calculateTicketsPerUserTrend db).score = 75) ∧
    (-10 ≤ trendPercentage db → trendPercentage db < 0 →
      (calculateTicketsPerUserTrend db).score = 60) ∧
    (trendPercentage db = 0 → (calculateTicketsPerUserTrend db).score = 50) ∧
    (0 < trendPercentage db → trendPercentage db < 10 →
      (calculateTicketsPerUserTrend db).score = 40) ∧
    (10 ≤ trendPercentage db → trendPercentage db < 20 →
      (calculateTicketsPerUserTrend db).score = 30) ∧
    (20 ≤ trendPercentage db → (calculateTicketsPerUserTrend db).score = 20) := by
  have hu : ¬ countUsers db = 0 := by
    simpa [countUsers, List.length_eq_zero] using h
  have hs : (calculateTicketsPerUserTrend db).score = trendStepScore (trendPercentage db) := by
    rw [calculateTicketsPerUserTrend, if_neg hu]
  refine ⟨?_, ?_, ?_, ?_, ?_, ?_, ?_⟩
  · intro h1
    rw [hs, trendStepScore, if_pos h1]
  · intro h1 h2
    rw [hs, trendStepScore, if_neg (by linarith), if_pos h2]
  · intro h1 h2
    rw [hs, trendStepScore, if_neg (by linarith), if_neg (by linarith), if_pos h2]
  · intro h1
    rw [hs, trendStepScore, h1]
    norm_num
  · intro h1 h2
    rw [hs, trendStepScore, if_neg (by linarith), if_neg (by linarith), if_neg (by linarith),
      if_neg (ne_of_gt h1), if_pos h2]
  · intro h1 h2
    rw [hs, trendStepScore, if_neg (by linarith), if_neg (by linarith), if_neg (by linarith),
      if_neg (by linarith), if_neg (by linarith), if_pos h2]
  · intro h1
    rw [hs, trendStepScore, if_neg (by linarith), if_neg (by linarith), if_neg (by linarith),
      if_neg (by linarith), if_neg (by linarith), if_neg (by linarith)]

/-- Witness for amended C3: the one-user client whose trend is exactly
−20% lands in the 75 band. -/
theorem tickets_trend_step_strict_witness :
    (calculateTicketsPerUserTrend db3).score = 75 :=
  (tickets_trend_step_strict db3 (by simp [db3])).2.1
    (by rw [db3_trend]) (by rw [db3_trend]; norm_num)

/-- Claim C4: zero users make the identity-risk component exactly 50 /
"Medium" with the no-data description; zero devices do the same for the
endpoint-risk component; and `calculateRiskScore` still produces a
numeric (integer) total built from those neutral midpoints. -/
theorem risk_zero_denominator_neutral (db : ClientDB) :
    (db.users = [] → calculateIdentityRisk db =
      ⟨50, "Medium", "No user data available for identity risk assessment"⟩) ∧
    (db.devices = [] → calculateEndpointRisk db =
      ⟨50, "Medium", "No device data available for endpoint risk assessment"⟩) ∧
    (db.users = [] → (calculateRiskScore db).breakdown.identity_risk.score = 50) ∧
    (db.devices = [] → (calculateRiskScore db).breakdown.endpoint_risk.score = 50) ∧
    (db.users = [] → db.devices = [] → (calculateRiskScore db).score =
      jround (50 * 0.30 + emailRiskStep (openEmailRiskCount db) * 0.25 +
        50 * 0.25 + 40 * 0.20)) := by
  have hid : db.users = [] → calculateIdentityRisk db =
      ⟨50, "Medium", "No user data available for identity risk assessment"⟩ := by
    intro h
    rw [calculateIdentityRisk, if_pos (by simp [countUsers, h])]
  have hep : db.devices = [] → calculateEndpointRisk db =
      ⟨50, "Medium", "No device data available for endpoint risk assessment"⟩ := by
    intro h
    rw [calculateEndpointRisk, if_pos (by simp [countDevices, h])]
  refine ⟨hid, hep, ?_, ?_, ?_⟩
  · intro h
    show (calculateIdentityRisk db).score = 50
    rw [hid h]
  · intro h
    show (calculateEndpointRisk db).score = 50
    rw [hep h]
  · intro h1 h2
    show jround (weightedTotal _ _) = _
    congr 1
    have e1 : (calculateIdentityRisk db).score = 50 := by rw [hid h1]
    have e2 : (calculateEndpointRisk db).score = 50 := by rw [hep h2]
    have e3 : (calculateEmailRisk db).score = emailRiskStep (openEmailRiskCount db) := rfl
    have e4 : (calculateBusinessModifier db).score = 40 := rfl
    simp only [weightedTotal, riskWeights, List.zip, List.zipWith, List.map,
      List.sum_cons, List.sum_nil]
    show (calculateIdentityRisk db).score * 0.30 + ((calculateEmailRisk db).score * 0.25 +
      ((calculateEndpointRisk db).score * 0.25 +
        ((calculateBusinessModifier db).score * 0.20 + 0))) = _
    rw [e1, e2, e3, e4]
    ring

/-- Witness for C4: the empty client gets both neutral components and a
numeric risk total. -/
theorem risk_zero_denominator_neutral_witness :
    calculateIdentityRisk dbEmpty =
      ⟨50, "Medium", "No user data available for identity risk assessment"⟩ ∧
    calculateEndpointRisk dbEmpty =
      ⟨50, "Medium", "No device data available for endpoint risk assessment"⟩ ∧
    (calculateRiskScore dbEmpty).score =
      jround (50 * 0.30 + emailRiskStep (openEmailRiskCount dbEmpty) * 0.25 +
        50 * 0.25 + 40 * 0.20) := by
  obtain ⟨h1, h2, _, _, h5⟩ := risk_zero_denominator_neutral dbEmpty
  exact ⟨h1 rfl, h2 rfl, h5 rfl rfl⟩

/-- Counterexample to claim C5: the status string `offline` matches
none of the adapter's recognized patterns, yet the mapping returns
`healthy` — the fallback of the pattern chain is `healthy`, not
`unknown`. -/
theorem immy_health_fallback_counterexample :
    mapImmyHealthStatus (some "offline") = HealthStatus.healthy ∧
    HealthStatus.healthy ≠ HealthStatus.unknown ∧
    jsIncludes "offline" "healthy" = false ∧ jsIncludes "offline" "compliant" = false ∧
    jsIncludes "offline" "pass" = false ∧ jsIncludes "offline" "warning" = false ∧
    jsIncludes "offline" "drift" = false ∧ jsIncludes "offline" "critical" = false ∧
    jsIncludes "offline" "fail" = false ∧ jsIncludes "offline" "non-compliant" = false := by
  decide

/-- Claim C5 as amended: absent (or empty) health telemetry maps to
`unknown` — in particular `normalizeDevice` defaults `health_status` to
`unknown` when neither `status` nor `health` is present — but a
non-empty status string the adapter does not recognize falls through
the pattern chain to `healthy`, never to `unknown`. -/
theorem immy_health_mapping (s : String) :
    mapImmyHealthStatus none = HealthStatus.unknown ∧
    mapImmyHealthStatus (some "") = HealthStatus.unknown ∧
    (∀ c : ImmyComputer, c.status = none → c.health = none →
      (normalizeDevice c).health_status = HealthStatus.unknown) ∧
    (s ≠ "" →
      jsIncludes (jsToLowerCase s) "healthy" = false →
      jsIncludes (jsToLowerCase s) "compliant" = false →
      jsIncludes (jsToLowerCase s) "pass" = false →
      jsIncludes (jsToLowerCase s) "warning" = false →
      jsIncludes (jsToLowerCase s) "drift" = false →
      jsIncludes (jsToLowerCase s) "critical" = false →
      jsIncludes (jsToLowerCase s) "fail" = false →
      jsIncludes (jsToLowerCase s) "non-compliant" = false →
      mapImmyHealthStatus (some s) = HealthStatus.healthy) := by
  refine ⟨rfl, rfl, ?_, ?_⟩
  · intro c h1 h2
    show (mapImmyHealthStatus (jsOrStr c.status c.health)) = HealthStatus.unknown
    rw [h1, h2]
    rfl
  · intro hne p1 p2 p3 p4 p5 p6 p7 p8
    show (if s = "" then HealthStatus.unknown else mapImmyHealthLower (jsToLowerCase s)) =
      HealthStatus.healthy
    rw [if_neg hne, mapImmyHealthLower]
    simp [p1, p2, p3, p4, p5, p6, p7, p8]

/-- Witness for amended C5: the unrecognized status `offline` falls
back to `healthy`, and a computer with no telemetry normalizes to
`unknown`. -/
theorem immy_health_mapping_witness :
    mapImmyHealthStatus (some "offline") = HealthStatus.healthy ∧
    (normalizeDevice ⟨none, none, none, none, none, none⟩).health_status =
      HealthStatus.unknown := by
  constructor
  · exact (immy_health_mapping "offline").2.2.2 (by decide) (by decide) (by decide)
      (by decide) (by decide) (by decide) (by decide) (by decide) (by decide)
  · exact (immy_health_mapping "offline").2.2.1 ⟨none, none, none, none, none, none⟩ rfl rfl

/-- Counterexample to claim C6: the M365 adapter class actually
exported by m365-adapter.js and instantiated by the `/sync/m365` route
is `M365AdapterSimplified`, whose `sync` succeeds with an empty batch
even when every declared required credential field is missing — no
`AdapterError` is raised. -/
theorem m365_simplified_sync_no_validation :
    m365SimplifiedSync (some []) = .ok emptyBatch ∧
    fieldTruthy [] "tenantId" = false ∧ fieldTruthy [] "clientId" = false ∧
    fieldTruthy [] "clientSecret" = false ∧
    (∀ e : AdapterError, m365SimplifiedSync (some []) ≠ .error e) :=
  ⟨rfl, rfl, rfl, rfl, fun _ h => Except.noConfusion h⟩

/-- Claim C6 as amended: `ImmyAdapter.sync` (and the unexported full
`M365Adapter.sync`) start with a synchronous `validateCredentials` call
that raises an `AdapterError` with status 400 whenever a declared
required field is missing or empty (or the credentials are not an
object), before any network call; but the exported
`M365AdapterSimplified.sync` used by the sync routes performs no
validation and returns the empty normalized batch for any
credentials. -/
theorem adapter_credential_validation (creds : Credentials) (f : String) :
    (f ∈ immyRequiredFields → fieldTruthy creds f = false →
      ∃ e, immySyncValidation (some creds) = .error e ∧ e.statusCode = 400) ∧
    immySyncValidation none =
      .error ⟨"Invalid credentials", "Credentials must be an object", 400⟩ ∧
    (f ∈ m365RequiredFields → fieldTruthy creds f = false →
      ∃ e, m365SyncValidation (some creds) = .error e ∧ e.statusCode = 400) ∧
    (∀ c, m365SimplifiedSync c = .ok emptyBatch) := by
  refine ⟨?_, rfl, ?_, fun c => rfl⟩
  · intro hf ht
    exact validateCredentials_missing creds immyRequiredFields f hf ht
  · intro hf ht
    exact validateCredentials_missing creds m365RequiredFields f hf ht

/-- Witness for amended C6: empty credentials are rejected with status
400 by both validating adapters, while the simplified M365 sync
accepts anything. -/
theorem adapter_credential_validation_witness :
    (∃ e, immySyncValidation (some []) = .error e ∧ e.statusCode = 400) ∧
    (∃ e, m365SyncValidation (some []) = .error e ∧ e.statusCode = 400) ∧
    m365SimplifiedSync none = .ok emptyBatch := by
  refine ⟨?_, ?_, ?_⟩
  · exact (adapter_credential_validation [] "apiKey").1 (by simp [immyRequiredFields]) rfl
  · exact (adapter_credential_validation [] "tenantId").2.2.1
      (by simp [m365RequiredFields]) rfl
  · exact (adapter_credential_validation [] "tenantId").2.2.2 none

/-- Claim C7: `validateCitations` raises the hallucination error
exactly when some recommendation has an empty or missing evidence list;
when every recommendation carries evidence the gate succeeds (returning
only warnings), so a citation whose referenced entity is not found in
the data never fails the run, and every error the gate can raise is of
the hallucination class. -/
theorem citation_gate_empty_evidence_iff (recs : List Recommendation)
    (input : NarrativeInput) :
    ((∃ m, validateCitations recs input = .error (.hallucinationDetected m)) ↔
      ∃ r ∈ recs, evidenceEmpty r = true) ∧
    ((∀ r ∈ recs, evidenceEmpty r = false) →
      ∃ ws, validateCitations recs input = .ok ws) ∧
    (∀ e, validateCitations recs input = .error e → ∃ m, e = .hallucinationDetected m) :=
  ⟨validateCitations_error_iff recs input, validateCitations_ok recs input,
    fun e => validateCitations_error_shape recs input e⟩

/-- Witness for C7: an empty-evidence recommendation raises the
hallucination error, and a recommendation citing a ticket present in
the data passes. -/
theorem citation_gate_empty_evidence_iff_witness :
    (∃ m, validateCitations [⟨"Upgrade aging hardware", some []⟩] ⟨none, none⟩ =
      .error (.hallucinationDetected m)) ∧
    (∃ ws, validateCitations [⟨"Expand MFA", some ["[Ticket #7]"]⟩]
      ⟨some [⟨7, "7"⟩], none⟩ = .ok ws) := by
  constructor
  · exact (citation_gate_empty_evidence_iff [⟨"Upgrade aging hardware", some []⟩]
      ⟨none, none⟩).1.mpr ⟨⟨"Upgrade aging hardware", some []⟩, by simp, rfl⟩
  · refine (citation_gate_empty_evidence_iff [⟨"Expand MFA", some ["[Ticket #7]"]⟩]
      ⟨some [⟨7, "7"⟩], none⟩).2.1 ?_
    intro r hr
    rw [List.mem_singleton] at hr
    subst hr
    rfl

/-- Counterexample to claim C8: on the scenario's data (50 devices, 45
managed, 42 healthy, 40 of 50 controls passing, secure-score pass rate
72%) the EDR component is 90 — its proxy is the managed-device count,
45, which cannot simultaneously be 48 — and the total is 83, not the
claimed 96 and 84. -/
theorem standards_scenario_counterexample :
    countDevices db8 = 50 ∧ countManagedDevices db8 = 45 ∧
    countDevicesByHealth db8 HealthStatus.healthy = 42 ∧
    countControlsByStatus db8 ControlStatus.pass = 40 ∧ totalControlsCount db8 = 50 ∧
    getPassRate db8 "m365_secure_score" = 72 ∧
    (calculateStandardsScore db8).breakdown = some ⟨⟨90⟩, ⟨80⟩, ⟨84⟩, ⟨90⟩, ⟨72⟩⟩ ∧
    (calculateStandardsScore db8).breakdown ≠ some ⟨⟨90⟩, ⟨80⟩, ⟨84⟩, ⟨96⟩, ⟨72⟩⟩ ∧
    (calculateStandardsScore db8).score = some 83 ∧
    (calculateStandardsScore db8).score ≠ some 84 := by
  refine ⟨db8_dev, db8_mng, db8_healthy, db8_pass, ?_, db8_passrate, ?_, ?_, ?_, ?_⟩
  · rw [totalControlsCount, db8_pass, db8_fail, db8_unk]
  · rw [db8_eval]
  · rw [db8_eval]
    intro hcontra
    simp at hcontra
  · rw [db8_eval]
  · rw [db8_eval]
    intro hcontra
    simp at hcontra

/-- Claim C8 as amended: on the scenario's data the Standards
components are device_coverage 90, baseline compliance 80, patch
compliance 84, EDR coverage 90 and secure score 72, with total
round(90×0.2 + 80×0.3 + 84×0.2 + 90×0.15 + 72×0.15) = round(83.1) = 83;
the EDR proxy is the managed-device count itself, so the EDR component
always equals the device-coverage percentage (here both 90). -/
theorem standards_scenario_actual :
    calculateStandardsScore db8 = ⟨some 83, none, some ⟨⟨90⟩, ⟨80⟩, ⟨84⟩, ⟨90⟩, ⟨72⟩⟩⟩ ∧
    countManagedDevices db8 = 45 ∧
    (83 : ℤ) = jround ((90 : ℚ) * 0.2 + 80 * 0.3 + 84 * 0.2 + 90 * 0.15 + 72 * 0.15) ∧
    (∀ db : ClientDB, (calculateEDRHealth db).score =
      (jround ((countManagedDevices db : ℚ) / countDevices db * 100) : ℚ) ∨
      (calculateEDRHealth db).score = 0) := by
  refine ⟨db8_eval, db8_mng, by norm_num [jround], ?_⟩
  intro db
  rw [calculateEDRHealth]
  split_ifs with h
  · exact Or.inr rfl
  · exact Or.inl rfl

/-- Claim C9: every numeric total and every breakdown component of the
three calculators lies in the 0–100 range, for every client state. -/
theorem scores_within_bounds (db : ClientDB) :
    (∀ s b, calculateStandardsScore db = ⟨some s, none, some b⟩ →
      within100Z s ∧ within100 b.device_coverage.score ∧ within100 b.immy_compliance.score ∧
        within100 b.patch_compliance.score ∧ within100 b.edr_health.score ∧
        within100 b.m365_secure_score.score) ∧
    (within100Z (calculateRiskScore db).score ∧
      within100 (calculateRiskScore db).breakdown.identity_risk.score ∧
      within100 (calculateRiskScore db).breakdown.email_risk.score ∧
      within100 (calculateRiskScore db).breakdown.endpoint_risk.score ∧
      within100 (calculateRiskScore db).breakdown.business_modifier.score) ∧
    (within100Z (calculateExperienceScore db).score ∧
      within100 (calculateExperienceScore db).breakdown.tickets_per_user_trend.score ∧
      within100 (calculateExperienceScore db).breakdown.repeat_issue_rate.score ∧
      within100 (calculateExperienceScore db).breakdown.sla_performance.score ∧
      within100 (calculateExperienceScore db).breakdown.reopen_rate.score ∧
      within100 (calculateExperienceScore db).breakdown.after_hours_incidents.score) := by
  refine ⟨?_, ?_, ?_⟩
  · intro s b h
    by_cases h0 : countDevices db = 0
    · simp [calculateStandardsScore, h0] at h
    · simp [calculateStandardsScore, h0] at h
      obtain ⟨hs, hb⟩ := h
      subst hb
      refine ⟨?_, deviceCoverage_within _ _, immy_within db, patch_within db,
        edr_within db, m365_within db⟩
      rw [← hs]
      exact jround_within (weighted5_within (deviceCoverage_within _ _) (immy_within db)
        (patch_within db) (edr_within db) (m365_within db)
        (by norm_num) (by norm_num) (by norm_num) (by norm_num) (by norm_num) (by norm_num))
  · refine ⟨?_, identity_within db, email_within db, endpoint_within db, business_within db⟩
    exact jround_within (weighted4_within (identity_within db) (email_within db)
      (endpoint_within db) (business_within db)
      (by norm_num) (by norm_num) (by norm_num) (by norm_num) (by norm_num))
  · refine ⟨?_, trend_within db, repeat_within db, sla_within db, reopen_within db,
      afterhours_within db⟩
    exact jround_within (weighted5_within (trend_within db) (repeat_within db)
      (sla_within db) (reopen_within db) (afterhours_within db)
      (by norm_num) (by norm_num) (by norm_num) (by norm_num) (by norm_num) (by norm_num))

/-- Witness for C9: the one-device client's Standards result (total 55,
components 100/0/100/100/0) is within bounds. -/
theorem scores_within_bounds_witness :
    within100Z 55 ∧ within100 100 ∧ within100 0 ∧ within100 100 ∧ within100 100 ∧
      within100 0 :=
  (scores_within_bounds db1).1 55 ⟨⟨100⟩, ⟨0⟩, ⟨100⟩, ⟨100⟩, ⟨0⟩⟩ db1_eval

/-- Claim C10: when the citation gate inside `generateNarrative`
detects an empty evidence list (raising `HallucinationDetectedError`
internally), the surrounding catch rethrows an `OpenAIError` with
message `Failed to generate narrative`; the hallucination error type
itself never reaches the caller. -/
theorem hallucination_wrapped_as_openai_error (t s : String)
    (recs : List Recommendation) (dp : List String) (input : NarrativeInput) :
    ((∃ r ∈ recs, evidenceEmpty r = true) →
      ∃ d, generateNarrativeFinish t s recs dp input =
        .error (.openAIError "Failed to generate narrative" d)) ∧
    (∀ m, generateNarrativeFinish t s recs dp input ≠
      .error (.hallucinationDetected m)) := by
  constructor
  · intro hex
    obtain ⟨m, hm⟩ := (validateCitations_error_iff recs input).mpr hex
    refine ⟨m, ?_⟩
    rw [generateNarrativeFinish, hm]
    rfl
  · intro m hcontra
    rw [generateNarrativeFinish] at hcontra
    cases hrest : validateCitations recs input with
    | error e =>
      rw [hrest] at hcontra
      simp at hcontra
    | ok ws =>
      rw [hrest] at hcontra
      exact absurd hcontra (by simp)

/-- Witness for C10: an empty-evidence recommendation surfaces as an
`OpenAIError` with the generic message. -/
theorem hallucination_wrapped_as_openai_error_witness :
    ∃ d, generateNarrativeFinish "trends" "summary"
      [⟨"Upgrade aging hardware", some []⟩] [] ⟨none, none⟩ =
        .error (.openAIError "Failed to generate narrative" d) :=
  (hallucination_wrapped_as_openai_error "trends" "summary"
    [⟨"Upgrade aging hardware", some []⟩] [] ⟨none, none⟩).1
    ⟨⟨"Upgrade aging hardware", some []⟩, by simp, rfl⟩

end EtopAM
